import Mathlib

/-!
# Verification of the pypxe DHCPv4 / TFTP protocol stack

Shallow embedding of the wire codecs and per-client transaction engines of
the pypxe repository (src/pypxe/tftp and src/dhcp), together with theorems
settling the specification claims about them.

Conventions: Python `bytes` values are `List (Fin 256)`; Python `int` fields
are `Nat` or `Int` according to how the source uses them; fallible Python
code (code that can raise) returns `Except PyErr` or `Option`; stateful
methods are embedded as functions returning the mutated object next to
their result.
-/

set_option maxHeartbeats 1000000
set_option maxRecDepth 100000

namespace PyPxe

/-- Decidable equality for `Except` results, so concrete runs of the
embedded fallible code can be checked by `decide`. -/
instance instDecEqExcept {ε α : Type} [DecidableEq ε] [DecidableEq α] :
    DecidableEq (Except ε α) := fun x y =>
  match x, y with
  | .ok a, .ok b =>
      if h : a = b then isTrue (by rw [h]) else isFalse (by simp [h])
  | .error a, .error b =>
      if h : a = b then isTrue (by rw [h]) else isFalse (by simp [h])
  | .ok _, .error _ => isFalse (fun hc => Except.noConfusion hc)
  | .error _, .ok _ => isFalse (fun hc => Except.noConfusion hc)

/-- A single octet, the element type of Python `bytes`. -/
abbrev Byte := Fin 256

/-- Build a byte from a natural number (used where the value is known < 256). -/
def byteOf (n : Nat) : Byte := ⟨n % 256, by omega⟩

/-- ASCII/UTF-8 bytes of a string (all strings in scope are ASCII). -/
def strBytes (s : String) : List Byte := s.data.map (fun c => byteOf c.toNat)

/-- Big-endian `struct.pack('>H', n)`: fails (struct.error) outside `[0, 65535]`. -/
def pack16 (n : Nat) : Option (List Byte) :=
  if h : n < 65536 then some [⟨n / 256, by omega⟩, ⟨n % 256, by omega⟩] else none

/-- Big-endian `struct.unpack('>H', raw)`: requires exactly two bytes. -/
def unpack16 (raw : List Byte) : Option Nat :=
  match raw with
  | [a, b] => some (a.val * 256 + b.val)
  | _ => none

namespace Tftp

/-- `OpCode` from src/pypxe/tftp/const.py (a plain `enum.Enum`). -/
inductive OpCode
  | ReadRequest
  | WriteRequest
  | Data
  | Ack
  | Error
  | OptionAck
deriving DecidableEq

/-- Numeric value of each opcode member. -/
def OpCode.value : OpCode → Nat
  | .ReadRequest => 1
  | .WriteRequest => 2
  | .Data => 3
  | .Ack => 4
  | .Error => 5
  | .OptionAck => 6

/-- `.name` of each opcode member (used in error message formatting). -/
def OpCode.pyName : OpCode → String
  | .ReadRequest => "ReadRequest"
  | .WriteRequest => "WriteRequest"
  | .Data => "Data"
  | .Ack => "Ack"
  | .Error => "Error"
  | .OptionAck => "OptionAck"

/-- `find_enum(OpCode, v)`: member lookup by value. -/
def OpCode.ofValue (n : Nat) : Option OpCode :=
  if n = 1 then some .ReadRequest
  else if n = 2 then some .WriteRequest
  else if n = 3 then some .Data
  else if n = 4 then some .Ack
  else if n = 5 then some .Error
  else if n = 6 then some .OptionAck
  else none

/-- `RequestMode` from src/pypxe/tftp/const.py. -/
inductive RequestMode
  | NetAscii
  | Octet
  | Mail
deriving DecidableEq

/-- The (lowercase) string value of each request mode. -/
def RequestMode.value : RequestMode → String
  | .NetAscii => "netascii"
  | .Octet => "octet"
  | .Mail => "mail"

/-- `ErrorCode` from src/pypxe/tftp/const.py (a plain `enum.Enum`). -/
inductive ErrorCode
  | NotDefined
  | FileNotFound
  | AccessViolation
  | DiskFull
  | IllegalOperation
  | UnknownTransferID
  | FileAlreadyExists
  | NoSuchUser
deriving DecidableEq

/-- Numeric value of each error code member. -/
def ErrorCode.value : ErrorCode → Nat
  | .NotDefined => 0
  | .FileNotFound => 1
  | .AccessViolation => 2
  | .DiskFull => 3
  | .IllegalOperation => 4
  | .UnknownTransferID => 5
  | .FileAlreadyExists => 6
  | .NoSuchUser => 7

/-- Python exceptions that the embedded TFTP code can raise: `ServerError`
(with an error code and message, src/pypxe/tftp/server/__init__.py) and any
other exception (ValueError, struct.error, AttributeError, ...). -/
inductive PyErr
  | serverError (code : ErrorCode) (message : String)
  | generic (message : String)
deriving DecidableEq

/-- `BadBlockError(given, expected)` from src/pypxe/tftp/server/handler.py:
a `ServerError` with code `IllegalOperation`; note the trailing space in the
format string `'bad block=%d, expected=%d '`. -/
def badBlockErr (given : Nat) (expected : Int) : PyErr :=
  .serverError .IllegalOperation
    ("bad block=" ++ toString given ++ ", expected=" ++ toString expected ++ " ")

/-- `BadOpCode(op)` from src/pypxe/tftp/server/__init__.py. -/
def badOpCodeErr (op : OpCode) : PyErr :=
  .serverError .IllegalOperation ("unexpected op=" ++ op.pyName)

/-- `Param` from src/pypxe/tftp/option.py: option names keyed by bytes value. -/
inductive Param
  | BlockSize
  | Timeout
  | TotalSize
deriving DecidableEq

/-- The bytes value of each option name (`b'blksize'`, `b'timeout'`, `b'tsize'`). -/
def Param.value : Param → List Byte
  | .BlockSize => strBytes "blksize"
  | .Timeout => strBytes "timeout"
  | .TotalSize => strBytes "tsize"

/-- `find_enum(Param, name)`: lookup of an option name by its bytes value
(no default supplied, so an unknown name raises ValueError). -/
def Param.ofValue (name : List Byte) : Option Param :=
  if name = Param.value .BlockSize then some .BlockSize
  else if name = Param.value .Timeout then some .Timeout
  else if name = Param.value .TotalSize then some .TotalSize
  else none

/-- `Option` from src/pypxe/tftp/option.py: one name/value pair. -/
structure TftpOpt where
  name : Param
  value : Int
deriving DecidableEq

/-- `Option.to_bytes`: name, NUL, decimal value, NUL. -/
def TftpOpt.to_bytes (o : TftpOpt) : List Byte :=
  o.name.value ++ [0] ++ strBytes (toString o.value) ++ [0]

/-- `Options.get` from src/pypxe/tftp/option.py: the hybrid container's
lookup dictionary maps each name to the index of its *last* occurrence. -/
def optsGet (opts : List TftpOpt) (k : Param) : Option Int :=
  ((opts.reverse).find? (fun o => o.name == k)).map (·.value)

/-- `Options.blocksize()`: the blksize option value or the default 512. -/
def optsBlocksize (opts : List TftpOpt) : Int :=
  (optsGet opts .BlockSize).getD 512

/-- `Options.totalsize()`: the tsize option value or none. -/
def optsTotalsize (opts : List TftpOpt) : Option Int :=
  optsGet opts .TotalSize

/-- The dynamic content of the `code` field of a TFTP Error packet.  The
typed constructor (`Error.__init__` in src/pypxe/tftp/tftp.py) stores an
`ErrorCode` enum member; `Error.from_bytes` stores the unpacked `int`.
Python's plain `enum.Enum` members never compare equal to integers, so the
two shapes are never equal. -/
inductive ErrField
  | enum (c : ErrorCode)
  | raw (n : Nat)
deriving DecidableEq

/-- `self.code.value` on the dynamic field: enum members have `.value`;
a raw `int` has no such attribute (AttributeError). -/
def ErrField.valueAttr : ErrField → Option Nat
  | .enum c => some c.value
  | .raw _ => none

/-- The five TFTP packet classes of src/pypxe/tftp/tftp.py. -/
inductive Packet
  | Request (op : OpCode) (filename : List Byte) (mode : RequestMode)
      (options : List TftpOpt)
  | OptionAcknowledgement (options : List TftpOpt)
  | Acknowledgement (block : Nat)
  | Data (block : Nat) (data : List Byte)
  | Error (code : ErrField) (message : List Byte)
deriving DecidableEq

/-- `Packet.op`: the class-level opcode attribute (carried per-instance for
`Request`, fixed for the other classes). -/
def Packet.op : Packet → OpCode
  | .Request o _ _ _ => o
  | .OptionAcknowledgement _ => .OptionAck
  | .Acknowledgement _ => .Ack
  | .Data _ _ => .Data
  | .Error _ _ => .Error

/-- `Packet.is_request()`: true when the opcode is RRQ or WRQ. -/
def Packet.isReq (p : Packet) : Bool :=
  p.op == OpCode.ReadRequest || p.op == OpCode.WriteRequest

/-- `to_bytes` of each packet class.  `struct.pack('>H', ·)` raises outside
the u16 range, and `self.code.value` raises AttributeError on a decoded
(integer) error code, hence the `Option`. -/
def Packet.to_bytes : Packet → Option (List Byte)
  | .Request op fn mode opts => do
      let w ← pack16 op.value
      pure (w ++ fn ++ [0] ++ strBytes mode.value ++ [0]
        ++ (opts.map TftpOpt.to_bytes).flatten)
  | .OptionAcknowledgement opts => do
      let w ← pack16 OpCode.OptionAck.value
      pure (w ++ (opts.map TftpOpt.to_bytes).flatten)
  | .Acknowledgement block => do
      let w ← pack16 OpCode.Ack.value
      let b ← pack16 block
      pure (w ++ b)
  | .Data block data => do
      let w ← pack16 OpCode.Data.value
      let b ← pack16 block
      pure (w ++ b ++ data)
  | .Error code msg => do
      let w ← pack16 OpCode.Error.value
      let v ← code.valueAttr
      let c ← pack16 v
      pure (w ++ c ++ msg)

/-- `utils.read_bytes(raw)` from src/pypxe/tftp/utils.py: split at the first
NUL; `bytes.index` raises ValueError when no NUL is present. -/
def read_bytes (raw : List Byte) : Except PyErr (List Byte × List Byte) :=
  match raw.findIdx? (· == (0 : Byte)) with
  | some i => .ok (raw.take i, raw.drop (i + 1))
  | none => .error (.generic "ValueError: subsection not found")

/-- Python `int(bytes.decode('utf-8'))`: an optional sign followed by at
least one ASCII digit (canonical numerals; sufficient for every value the
codec itself ever produces). -/
def parseInt (raw : List Byte) : Except PyErr Int :=
  let digits (l : List Byte) : Except PyErr Nat :=
    if l ≠ [] ∧ l.all (fun b => 48 ≤ b.val ∧ b.val ≤ 57) then
      .ok (l.foldl (fun acc b => acc * 10 + (b.val - 48)) 0)
    else .error (.generic "ValueError: invalid literal for int")
  match raw with
  | b :: rest =>
      if b.val = 45 then (digits rest).map (fun n => -(n : Int))
      else if b.val = 43 then (digits rest).map (fun n => (n : Int))
      else (digits raw).map (fun n => (n : Int))
  | [] => .error (.generic "ValueError: invalid literal for int")

/-- `Option.from_bytes` from src/pypxe/tftp/option.py: read a NUL-terminated
name and value, look the name up in `Param`, parse the value as an integer. -/
def optFromBytes (raw : List Byte) : Except PyErr TftpOpt := do
  let (name, r1) ← read_bytes raw
  let (value, _) ← read_bytes r1
  match Param.ofValue name with
  | some p => do
      let v ← parseInt value
      pure ⟨p, v⟩
  | none => .error (.generic "ValueError: no such value in enum Param")

/-- The `while` loop of `option.from_bytes`: the cursor advances by the
length of the *parsed* name and the decimal rendering of the *parsed* value
plus the two NULs.  Fuel `raw.length + 1` always suffices because every
iteration advances the cursor by at least 7. -/
def optsFromBytesLoop : Nat → Nat → List Byte → Except PyErr (List TftpOpt)
  | 0, _, _ => .error (.generic "fuel exhausted (unreachable)")
  | fuel + 1, n, raw =>
      if n < raw.length then do
        let opt ← optFromBytes (raw.drop n)
        let n' := n + opt.name.value.length + (strBytes (toString opt.value)).length + 2
        let rest ← optsFromBytesLoop fuel n' raw
        pure (opt :: rest)
      else .ok []

/-- `option.from_bytes(raw)` from src/pypxe/tftp/option.py. -/
def optsFromBytes (raw : List Byte) : Except PyErr (List TftpOpt) :=
  optsFromBytesLoop (raw.length + 1) 0 raw

/-- ASCII lowercasing of decoded bytes (`str.lower` on the ASCII range). -/
def asciiLower (raw : List Byte) : List Byte :=
  raw.map (fun b => if 65 ≤ b.val ∧ b.val ≤ 90 then byteOf (b.val + 32) else b)

/-- `find_enum(RequestMode, mode.decode('utf-8').lower())`. -/
def RequestMode.ofBytes (raw : List Byte) : Option RequestMode :=
  if asciiLower raw = strBytes "netascii" then some .NetAscii
  else if asciiLower raw = strBytes "octet" then some .Octet
  else if asciiLower raw = strBytes "mail" then some .Mail
  else none

/-- `Request.from_bytes` from src/pypxe/tftp/tftp.py. -/
def Request.from_bytes (raw : List Byte) : Except PyErr Packet := do
  match unpack16 (raw.take 2) with
  | none => .error (.generic "struct.error")
  | some opv =>
      match OpCode.ofValue opv with
      | none => .error (.generic "ValueError: no such value in enum OpCode")
      | some op => do
          let (fn, r1) ← read_bytes (raw.drop 2)
          let (mode, r2) ← read_bytes r1
          match RequestMode.ofBytes mode with
          | none => .error (.generic "ValueError: no such value in enum RequestMode")
          | some m => do
              let opts ← optsFromBytes r2
              pure (.Request op fn m opts)

/-- `OptionAcknowledgement.from_bytes`. -/
def OptionAcknowledgement.from_bytes (raw : List Byte) : Except PyErr Packet := do
  let opts ← optsFromBytes (raw.drop 2)
  pure (.OptionAcknowledgement opts)

/-- `Acknowledgement.from_bytes`: `struct.unpack('>H', raw[2:])` demands the
tail be exactly two bytes. -/
def Acknowledgement.from_bytes (raw : List Byte) : Except PyErr Packet :=
  match unpack16 (raw.drop 2) with
  | some b => .ok (.Acknowledgement b)
  | none => .error (.generic "struct.error")

/-- `Data.from_bytes`. -/
def Data.from_bytes (raw : List Byte) : Except PyErr Packet :=
  match unpack16 ((raw.drop 2).take 2) with
  | some b => .ok (.Data b (raw.drop 4))
  | none => .error (.generic "struct.error")

/-- `Error.from_bytes`: note that the unpacked integer is stored directly in
the `code` field (no `find_enum(ErrorCode, ·)`), unlike `Request.from_bytes`
which does reconstruct its enums. -/
def Error.from_bytes (raw : List Byte) : Except PyErr Packet :=
  match unpack16 ((raw.drop 2).take 2) with
  | some c => .ok (.Error (.raw c) (raw.drop 4))
  | none => .error (.generic "struct.error")

/-- Python `int == <plain enum.Enum member>`: always `False`, because
`enum.Enum` does not define `__eq__` against its values and `OpCode` in
src/pypxe/tftp/const.py is a plain `Enum`, not an `IntEnum`.  This is the
comparison the `from_bytes` dispatcher performs. -/
def intEnumEq (_v : Nat) (_e : OpCode) : Bool := false

/-- `tftp.from_bytes(raw)` from src/pypxe/tftp/tftp.py: dispatch on the
unpacked u16 opcode.  Each guard compares the raw `int` against a plain
`Enum` member, so every guard is `False` and every input reaches the
`NotImplementedError('invalid opcode: %d')` branch. -/
def from_bytes (raw : List Byte) : Except PyErr Packet :=
  match unpack16 (raw.take 2) with
  | none => .error (.generic "struct.error")
  | some op =>
      if intEnumEq op .ReadRequest || intEnumEq op .WriteRequest then
        Request.from_bytes raw
      else if intEnumEq op .OptionAck then OptionAcknowledgement.from_bytes raw
      else if intEnumEq op .Ack then Acknowledgement.from_bytes raw
      else if intEnumEq op .Data then Data.from_bytes raw
      else if intEnumEq op .Error then Error.from_bytes raw
      else .error (.generic ("invalid opcode: " ++ toString op))

/-- A seekable byte buffer: the `io.BytesIO`-like object the handlers own.
`data` is the full contents, `pos` the cursor. -/
structure Buffer where
  data : List Byte
  pos : Nat
deriving DecidableEq

/-- The bytes `file.read(n)` returns: negative `n` reads to the end (Python
semantics). -/
def Buffer.readBytes (f : Buffer) (n : Int) : List Byte :=
  if n < 0 then f.data.drop f.pos else (f.data.drop f.pos).take n.toNat

/-- `file.read(n)`: the cursor advances by the number of bytes returned. -/
def Buffer.read (f : Buffer) (n : Int) : List Byte × Buffer :=
  (f.readBytes n, { f with pos := f.pos + (f.readBytes n).length })

/-- `file.seek(i, 0)`. -/
def Buffer.seekTo (f : Buffer) (i : Nat) : Buffer := { f with pos := i }

/-- `file.write(bs)`: overwrite at the cursor, zero-filling any gap past the
end, and advance the cursor. -/
def Buffer.write (f : Buffer) (bs : List Byte) : Buffer :=
  { data := f.data.take f.pos ++ List.replicate (f.pos - f.data.length) (0 : Byte)
      ++ bs ++ f.data.drop (f.pos + bs.length),
    pos := f.pos + bs.length }

/-- The `Reader` handler state from src/pypxe/tftp/server/handler.py.
`block` is `-1` once closed; `optack`/`skip` are the `_optack`/`_skip`
flags. -/
structure Reader where
  file : Buffer
  block : Int
  options : List TftpOpt
  blksize : Int
  tsize : Option Int
  optack : Bool
  skip : Bool
deriving DecidableEq

/-- `Reader(file, options)`: the `TFTPHandler.__init__` + `Reader.__init__`
initial state. -/
def Reader.new (file : Buffer) (options : List TftpOpt) : Reader :=
  { file := file, block := 0, options := options,
    blksize := optsBlocksize options, tsize := optsTotalsize options,
    optack := false, skip := false }

/-- `Reader.filesize`: seek to the end, record, restore (net effect pure). -/
def Reader.filesize (r : Reader) : Nat := r.file.data.length

/-- `Reader.index()`: `blksize * block`. -/
def Reader.index (r : Reader) : Int := r.blksize * r.block

/-- `Reader.generate()` from src/pypxe/tftp/server/handler.py lines 79-107,
returned together with the mutated handler. -/
def Reader.generate (r : Reader) : Option Packet × Reader :=
  if r.block = -1 then (none, r)
  else if r.block = 0 ∧ 0 < r.options.length ∧ r.optack = false then
    (some (.OptionAcknowledgement
        ((if r.blksize ≠ 512 then [⟨.BlockSize, r.blksize⟩] else [])
          ++ (if r.tsize.isSome then [⟨.TotalSize, (r.filesize : Int)⟩] else []))),
      { r with optack := true, skip := true })
  else if r.index ≤ (r.file.pos : Int) then
    (some (.Data (r.block + 1).toNat
        (((if r.index ≠ (r.file.pos : Int) then r.file.seekTo r.index.toNat
            else r.file).read r.blksize).1)),
      { r with file := ((if r.index ≠ (r.file.pos : Int) then
          r.file.seekTo r.index.toNat else r.file).read r.blksize).2 })
  else (none, r)

/-- `Reader.next(pkt)` from src/pypxe/tftp/server/handler.py lines 109-141:
the boolean is `False` when the transmission is complete; exceptions carry
the handler state as mutated up to the raise. -/
def Reader.next (r : Reader) (pkt : Packet) : Reader × Except PyErr Bool :=
  if r.block = -1 then (r, .ok false)
  else if pkt.op == OpCode.Error then
    (r, .error (.generic "client error"))
  else if pkt.op == OpCode.Ack then
    match pkt with
    | .Acknowledgement b =>
        if r.skip then
          if b ≠ 0 then (r, .error (badBlockErr b 0))
          else ({ r with skip := false }, .ok true)
        else if (b : Int) ≠ r.block + 1 then
          (r, .error (badBlockErr b (r.block + 1)))
        else
          let r' := { r with block := r.block + 1 }
          if (r'.filesize : Int) < r'.index then (r', .ok false) else (r', .ok true)
    | _ => (r, .error (.generic "AttributeError: block"))
  else (r, .error (badOpCodeErr pkt.op))

/-- The `Writer` handler state from src/pypxe/tftp/server/handler.py. -/
structure Writer where
  file : Buffer
  block : Int
  options : List TftpOpt
  blksize : Int
  tsize : Option Int
deriving DecidableEq

/-- `Writer(file, options)` initial state. -/
def Writer.new (file : Buffer) (options : List TftpOpt) : Writer :=
  { file := file, block := 0, options := options,
    blksize := optsBlocksize options, tsize := optsTotalsize options }

/-- `Writer.generate()` from src/pypxe/tftp/server/handler.py lines 157-165:
always an `Acknowledgement` of the current block when open (there is no
option-acknowledgement path in the Writer). -/
def Writer.generate (w : Writer) : Option Packet × Writer :=
  if w.block = -1 then (none, w) else (some (.Acknowledgement w.block.toNat), w)

/-- `Writer.next(pkt)` from src/pypxe/tftp/server/handler.py lines 167-199.
On a matching Data packet the payload is written to the buffer *before* the
oversize check, so the raised `ServerError` leaves the payload in the
buffer. -/
def Writer.next (w : Writer) (pkt : Packet) : Writer × Except PyErr Bool :=
  if w.block = -1 then (w, .ok false)
  else if pkt.op == OpCode.Error then
    (w, .error (.generic "client error"))
  else if pkt.op == OpCode.Data then
    match pkt with
    | .Data b payload =>
        if (b : Int) ≠ w.block + 1 then
          (w, .error (badBlockErr b (w.block + 1)))
        else
          let w1 := { w with file := w.file.write payload }
          if (payload.length : Int) > w.blksize then
            (w1, .error (.serverError .IllegalOperation
              ("invalid size=" ++ toString payload.length
                ++ ", block<=" ++ toString w.blksize)))
          else
            let w2 := { w1 with block := w.block + 1 }
            if (payload.length : Int) < w.blksize then (w2, .ok false)
            else (w2, .ok true)
    | _ => (w, .error (.generic "AttributeError: block"))
  else (w, .error (badOpCodeErr pkt.op))

/-- A session handler: Reader or Writer. -/
inductive Handler
  | reader (r : Reader)
  | writer (w : Writer)
deriving DecidableEq

/-- `handler.next(pkt)` dispatch. -/
def Handler.next (h : Handler) (pkt : Packet) : Handler × Except PyErr Bool :=
  match h with
  | .reader r => let (r', e) := Reader.next r pkt; (.reader r', e)
  | .writer w => let (w', e) := Writer.next w pkt; (.writer w', e)

/-- `handler.generate()` dispatch. -/
def Handler.generate (h : Handler) : Option Packet × Handler :=
  match h with
  | .reader r => let (p, r') := Reader.generate r; (p, .reader r')
  | .writer w => let (p, w') := Writer.generate w; (p, .writer w')

/-- The `_connstate` map of `_Handler` (src/pypxe/tftp/server/server.py):
peer string to (original request, handler). -/
abbrev SessionMap := List (String × (Packet × Handler))

/-- Dict lookup. -/
def mlookup (addr : String) (m : SessionMap) : Option (Packet × Handler) :=
  (m.find? (fun e => e.1 == addr)).map (·.2)

/-- Dict deletion (`_kill_transaction` removes the entry; the handler it
closes is dropped with it). -/
def mremove (addr : String) (m : SessionMap) : SessionMap :=
  m.filter (fun e => !(e.1 == addr))

/-- Dict insertion / overwrite. -/
def minsert (addr : String) (v : Packet × Handler) (m : SessionMap) : SessionMap :=
  (addr, v) :: mremove addr m

/-- `_Handler.on_packet` from src/pypxe/tftp/server/server.py lines 101-146,
parameterised by the read/write providers (`_on_read` / `_on_write`; the
completion callback has no effect on the session map and is not modelled).
Returns the session map as mutated up to return or raise, and the reply (or
the exception propagated to `datagram_received`). -/
def onPacket (rp wp : Packet → Option Buffer) (s : SessionMap) (pkt : Packet)
    (addr : String) : SessionMap × Except PyErr (Option Packet) :=
  match mlookup addr s with
  | none =>
      match pkt with
      | .Request op _ _ opts =>
          if op = .ReadRequest then
            match rp pkt with
            | none => (s, .error (.serverError .FileNotFound "file not found"))
            | some buf =>
                let (res, r') := Reader.generate (Reader.new buf opts)
                (minsert addr (pkt, .reader r') s, .ok res)
          else if op = .WriteRequest then
            match wp pkt with
            | none => (s, .error (.serverError .FileAlreadyExists "file already exists"))
            | some buf =>
                let (res, w') := Writer.generate (Writer.new buf opts)
                (minsert addr (pkt, .writer w') s, .ok res)
          else (s, .error (badOpCodeErr op))
      | _ => (s, .error (badOpCodeErr pkt.op))
  | some (req, hd) =>
      if pkt.isReq then (s, .error (badOpCodeErr pkt.op))
      else
        let (hd1, out) := Handler.next hd pkt
        match out with
        | .error e => (minsert addr (req, hd1) s, .error e)
        | .ok nxt =>
            let (res, hd2) := Handler.generate hd1
            if nxt then (minsert addr (req, hd2) s, .ok res)
            else (mremove addr s, .ok res)

/-- The try/except wrapper of `datagram_received` (src/pypxe/tftp/server/
server.py lines 161-176) around `on_packet`, for an already-decoded packet:
a `ServerError` kills the transaction and is mapped to an Error reply with
its code and message; any other exception kills the transaction and is
mapped to `Error(NotDefined, b'internal server error occured')`. -/
def handlePacket (rp wp : Packet → Option Buffer) (s : SessionMap) (pkt : Packet)
    (addr : String) : SessionMap × Option Packet :=
  let (s1, out) := onPacket rp wp s pkt addr
  match out with
  | .ok res => (s1, res)
  | .error (.serverError c m) =>
      (mremove addr s1, some (.Error (.enum c) (strBytes m)))
  | .error (.generic _) =>
      (mremove addr s1, some (.Error (.enum .NotDefined)
        (strBytes "internal server error occured")))

/-- The acknowledgement a correct client sends for a server packet: `Ack b`
for `Data b`, `Ack 0` for an OACK. -/
def clientAck (p : Packet) : Packet :=
  match p with
  | .Data b _ => .Acknowledgement b
  | _ => .Acknowledgement 0

/-- A complete read transfer driven against the Reader state machine by a
correct client: repeatedly take the generated packet, acknowledge it, and
stop when `next` reports completion (or anything other than a normal
continuation).  Returns the list of packets the server emitted. -/
def Reader.drive : Nat → Reader → List Packet
  | 0, _ => []
  | fuel + 1, r =>
      let (res, r1) := Reader.generate r
      match res with
      | none => []
      | some p =>
          let (r2, out) := Reader.next r1 (clientAck p)
          match out with
          | .ok true => p :: Reader.drive fuel r2
          | _ => [p]

/-- Is a packet a Data packet? -/
def Packet.isData : Packet → Bool
  | .Data _ _ => true
  | _ => false

/-- Number of Data packets in an emission trace. -/
def countData (ps : List Packet) : Nat := (ps.filter Packet.isData).length

end Tftp

namespace Dhcp

/-- Python exceptions raised by the DHCP codecs (ValueError, TypeError,
struct.error, IndexError, and the spec's decode failures). -/
inductive DErr
  | err (message : String)
deriving DecidableEq

/-- `OpCode` from src/dhcp/dhcp4/const.py. -/
inductive OpCode
  | BootRequest
  | BootReply
deriving DecidableEq

/-- Numeric value of each DHCP opcode. -/
def OpCode.value : OpCode → Nat
  | .BootRequest => 1
  | .BootReply => 2

/-- `find_enum(OpCode, v)`. -/
def OpCode.ofValue (n : Nat) : Option OpCode :=
  if n = 1 then some .BootRequest else if n = 2 then some .BootReply else none

/-- `MessageType` from src/dhcp/dhcp4/const.py. -/
inductive MessageType
  | Discover
  | Offer
  | Request
  | Decline
  | Ack
  | Nak
  | Release
  | Inform
deriving DecidableEq

/-- Numeric value of each message type. -/
def MessageType.value : MessageType → Nat
  | .Discover => 1
  | .Offer => 2
  | .Request => 3
  | .Decline => 4
  | .Ack => 5
  | .Nak => 6
  | .Release => 7
  | .Inform => 8

/-- `find_enum(MessageType, v)`. -/
def MessageType.ofValue (n : Nat) : Option MessageType :=
  if n = 1 then some .Discover
  else if n = 2 then some .Offer
  else if n = 3 then some .Request
  else if n = 4 then some .Decline
  else if n = 5 then some .Ack
  else if n = 6 then some .Nak
  else if n = 7 then some .Release
  else if n = 8 then some .Inform
  else none

/-- Modelled from the spec: the IANA hardware-type enum.  The `iana` module
referenced by src/dhcp/dhcp4/dhcp.py (`from ..net import iana`) is absent
from the source tree; the spec's data model names `Ethernet=1` as the
hardware type ("htype | 1 | IANA hardware type (Ethernet=1)"). -/
inductive HWType
  | Ethernet
deriving DecidableEq

/-- Numeric value of each hardware type. -/
def HWType.value : HWType → Nat
  | .Ethernet => 1

/-- Modelled from the spec: `find_enum(iana.HWType, v)`, succeeding exactly
on the known hardware-type values. -/
def HWType.ofValue (n : Nat) : Option HWType :=
  if n = 1 then some .Ethernet else none

/-- `Ipv4` from src/dhcp/net.py: exactly four octets, validated by the
constructor. -/
structure Ipv4 where
  a : Byte
  b : Byte
  c : Byte
  d : Byte
deriving DecidableEq

/-- `Ipv4.to_bytes`. -/
def Ipv4.to_bytes (ip : Ipv4) : List Byte := [ip.a, ip.b, ip.c, ip.d]

/-- `Ipv4.from_bytes(raw)` = `Ipv4(*raw)`: a TypeError unless the slice has
exactly four bytes. -/
def Ipv4.from_bytes (raw : List Byte) : Except DErr Ipv4 :=
  match raw with
  | [a, b, c, d] => .ok ⟨a, b, c, d⟩
  | _ => .error (.err "TypeError: Ipv4 takes 4 octets")

/-- `TransactionID` from src/dhcp/dhcp4/dhcp.py: a four-byte `ByteObject`
(the typed constructor enforces length 4, and the decoder always slices
`raw[4:8]`). -/
structure TransactionID where
  b0 : Byte
  b1 : Byte
  b2 : Byte
  b3 : Byte
deriving DecidableEq

/-- `TransactionID.to_bytes`. -/
def TransactionID.to_bytes (x : TransactionID) : List Byte :=
  [x.b0, x.b1, x.b2, x.b3]

/-- Fixed big-endian two-byte encoding of a u16 field (`struct.pack('>H')`
on an in-range value). -/
def u16be (n : Fin 65536) : List Byte :=
  [⟨n.val / 256, by omega⟩, ⟨n.val % 256, by omega⟩]

/-- The `DHCPv4` packet object of src/dhcp/dhcp4/dhcp.py.  Field widths
follow the wire data model the constructor and codecs enforce; `hlen` is
derived from the hardware address by `__init__`.  The type of the option
list is a parameter because the Python attribute is dynamically typed: the
typed API stores option objects (with `to_bytes`), the decoder stores the
parsed options. -/
structure DHCPv4 (α : Type) where
  op : OpCode
  htype : HWType
  hops : Byte
  xid : TransactionID
  secs : Fin 65536
  flags : Fin 65536
  client_addr : Ipv4
  your_addr : Ipv4
  server_addr : Ipv4
  gateway_addr : Ipv4
  client_hwaddr : List Byte
  server_name : List Byte
  boot_file : List Byte
  options : List α

/-- `self.hlen = client_hwaddr._length`. -/
def DHCPv4.hlen {α : Type} (p : DHCPv4 α) : Nat := p.client_hwaddr.length

/-- `magic_cookie` from src/dhcp/dhcp4/dhcp.py: `0x63 0x82 0x53 0x63`. -/
def magic_cookie : List Byte := [99, 130, 83, 99]

/-- `bytes((...))` element check: each entry must be in `[0, 255]`. -/
def byteCheck (n : Nat) : Option Byte :=
  if h : n < 256 then some ⟨n, h⟩ else none

/-- `struct.pack('>H', n)` for a `Nat` argument (fails at 65536 and above). -/
def packU16 (n : Nat) : Option (List Byte) :=
  if h : n < 65536 then some (u16be ⟨n, h⟩) else none

/-- The base `Option.to_bytes` TLV: `bytes((opcode, len(value))) + value`;
fails when the value is longer than 255 bytes. -/
def baseTLV (op : Byte) (v : List Byte) : Option (List Byte) :=
  (byteCheck v.length).map (fun L => op :: L :: v)

/-- The DHCP option classes of src/dhcp/dhcp4/option.py (the module used by
`DHCPv4.to_bytes`; it defines encoders only).  `clientSysArch` carries the
arch codes of the `iana.ArchList` (modelled from the spec: a list of u16
big-endian architecture codes, the `iana` module being absent from the
source tree). -/
inductive Opt
  | base (value : List Byte)
  | messageType (type : MessageType)
  | paramRequestList (params : List Nat)
  | maxMessageSize (max_length : Nat)
  | vendorClassIdent (value : List Byte)
  | clientIdent (hwtype : HWType) (mac : List Byte)
  | userClassInfo (value : List Byte)
  | clientSysArch (archs : List Nat)
  | clientNetDevIface (major minor : Nat)
  | xxidClientIdent (value : List Byte)
  | etherBoot (value : List Byte)
deriving DecidableEq

/-- `to_bytes` of each option class in src/dhcp/dhcp4/option.py. -/
def Opt.to_bytes : Opt → Option (List Byte)
  | .base v => baseTLV 0 v
  | .messageType t => some [53, 1, byteOf t.value]
  | .paramRequestList ps => do
      let L ← byteCheck ps.length
      let bs ← ps.mapM byteCheck
      pure ((55 : Byte) :: L :: bs)
  | .maxMessageSize m => do
      let w ← packU16 m
      pure ([57, 2] ++ w)
  | .vendorClassIdent v => baseTLV 60 v
  | .clientIdent ht mac => do
      let L ← byteCheck (mac.length + 1)
      pure ([61, L, byteOf ht.value] ++ mac)
  | .userClassInfo v => baseTLV 77 v
  | .clientSysArch archs => do
      let raw ← archs.mapM packU16
      let flat := raw.flatten
      let L ← byteCheck flat.length
      pure ([93, L] ++ flat)
  | .clientNetDevIface major minor => do
      let ma ← byteCheck major
      let mi ← byteCheck minor
      pure [94, 3, 1, ma, mi]
  | .xxidClientIdent v => do
      let L ← byteCheck (v.length + 1)
      pure ([97, L, 0] ++ v)
  | .etherBoot v => baseTLV 175 v

/-- `DHCPv4.to_bytes` from src/dhcp/dhcp4/dhcp.py lines 109-129: fixed
240-byte header (with the chaddr field zero-padded to 16 via
`hwaddr + bytes(16)[len(hwaddr):]` and sname/file padded with
`bytes(64-len)` / `bytes(128-len)`, which raise on negative counts), the
magic cookie, each option's TLV, and a final `0xFF`. -/
def DHCPv4.to_bytes (p : DHCPv4 Opt) : Option (List Byte) :=
  (byteCheck p.client_hwaddr.length).bind fun hlenB =>
  (if p.server_name.length ≤ 64 then
      some (List.replicate (64 - p.server_name.length) (0 : Byte))
    else none).bind fun snamePad =>
  (if p.boot_file.length ≤ 128 then
      some (List.replicate (128 - p.boot_file.length) (0 : Byte))
    else none).bind fun filePad =>
  (p.options.mapM Opt.to_bytes).map fun parts =>
  [byteOf p.op.value, byteOf p.htype.value, hlenB, p.hops]
    ++ p.xid.to_bytes ++ u16be p.secs ++ u16be p.flags
    ++ p.client_addr.to_bytes ++ p.your_addr.to_bytes
    ++ p.server_addr.to_bytes ++ p.gateway_addr.to_bytes
    ++ p.client_hwaddr ++ (List.replicate 16 (0 : Byte)).drop p.client_hwaddr.length
    ++ p.server_name ++ snamePad ++ p.boot_file ++ filePad
    ++ magic_cookie ++ parts.flatten ++ [255]

/-- A decoded option as the spec's decoder yields it: opcode plus payload. -/
structure SpecOpt where
  opcode : Nat
  payload : List Byte
deriving DecidableEq

/-- Modelled from the spec: the per-opcode payload shape table of spec §3
("DHCP option" table) used by the option decoder's length validation
(`BadOptionLength`). -/
def specPayloadOk (op : Nat) (p : List Byte) : Bool :=
  if op = 1 ∨ op = 3 ∨ op = 6 ∨ op = 50 ∨ op = 51 ∨ op = 54 ∨ op = 128 then
    p.length == 4
  else if op = 53 then
    p.length == 1 && 1 ≤ p.headD 0 && p.headD 0 ≤ 8
  else if op = 57 then p.length == 2
  else if op = 61 then 2 ≤ p.length
  else if op = 93 then p.length % 2 == 0
  else if op = 94 then p.length == 3 && p.headD 0 == 1
  else if op = 97 then 1 ≤ p.length && p.headD 1 == 0
  else true

/-- Modelled from the spec: the DHCPv4 option-list decoder of spec §4.2.
`DHCPv4.from_bytes` in src/dhcp/dhcp4/dhcp.py calls `option.from_bytes`,
but src/dhcp/dhcp4/option.py defines no such function (its own TODO reads
"implement from-bytes operations for existing options"), so the decoder is
modelled from the spec's words: read TLVs until a `0xFF` (End) byte at the
cursor; opcode 0 (Pad) is consumed as a single byte with no length; a
declared length exceeding the remaining bytes fails (`TruncatedOption`);
payloads violating §3's table fail (`BadOptionLength`); anything else is
preserved as an opcode/payload pair.  Fuel `raw.length + 1` always
suffices. -/
def specOptionsDecode : Nat → List Byte → Except DErr (List SpecOpt)
  | 0, _ => .error (.err "fuel exhausted (unreachable)")
  | fuel + 1, raw =>
      match raw with
      | [] => .error (.err "TruncatedOption")
      | b :: rest =>
          if b.val = 255 then .ok []
          else if b.val = 0 then specOptionsDecode fuel rest
          else
            match rest with
            | [] => .error (.err "TruncatedOption")
            | L :: rest2 =>
                if L.val ≤ rest2.length then
                  let payload := rest2.take L.val
                  if specPayloadOk b.val payload then
                    match specOptionsDecode fuel (rest2.drop L.val) with
                    | .ok tail => .ok (⟨b.val, payload⟩ :: tail)
                    | .error e => .error e
                  else .error (.err "BadOptionLength")
                else .error (.err "TruncatedOption")

/-- The spec-modelled `option.from_bytes(raw)` entry point. -/
def specOptionsFromBytes (raw : List Byte) : Except DErr (List SpecOpt) :=
  specOptionsDecode (raw.length + 1) raw

/-- `raw.rstrip(b'\x00')`. -/
def rstripZeros (l : List Byte) : List Byte :=
  (l.reverse.dropWhile (· == (0 : Byte))).reverse

/-- `DHCPv4.from_bytes` from src/dhcp/dhcp4/dhcp.py lines 131-155.  The
function validates `op` and `htype` through `find_enum` and parses the
fixed fields at their offsets; it contains no length check and no
magic-cookie check, and hands `raw[240:]` to the (spec-modelled) option
decoder. -/
def DHCPv4.from_bytes (raw : List Byte) : Except DErr (DHCPv4 SpecOpt) :=
  match raw with
  | b0 :: b1 :: b2 :: b3 :: rest => do
      let op ←
        match OpCode.ofValue b0.val with
        | some o => Except.ok o
        | none => Except.error (.err "ValueError: no such value in enum OpCode")
      let ht ←
        match HWType.ofValue b1.val with
        | some h => Except.ok h
        | none => Except.error (.err "ValueError: no such value in enum HWType")
      let hlen := b2.val
      let xid ←
        match rest with
        | x0 :: x1 :: x2 :: x3 :: _ => Except.ok (⟨x0, x1, x2, x3⟩ : TransactionID)
        | _ => Except.error (.err "struct.error")
      let secs ←
        match (raw.drop 8).take 2 with
        | [a, b] => Except.ok (⟨a.val * 256 + b.val, by omega⟩ : Fin 65536)
        | _ => Except.error (.err "struct.error")
      let flags ←
        match (raw.drop 10).take 2 with
        | [a, b] => Except.ok (⟨a.val * 256 + b.val, by omega⟩ : Fin 65536)
        | _ => Except.error (.err "struct.error")
      let ca ← Ipv4.from_bytes ((raw.drop 12).take 4)
      let ya ← Ipv4.from_bytes ((raw.drop 16).take 4)
      let sa ← Ipv4.from_bytes ((raw.drop 20).take 4)
      let ga ← Ipv4.from_bytes ((raw.drop 24).take 4)
      let opts ← specOptionsFromBytes (raw.drop 240)
      let packet : DHCPv4 SpecOpt :=
        { op := op, htype := ht, hops := b3, xid := xid, secs := secs,
          flags := flags, client_addr := ca, your_addr := ya,
          server_addr := sa, gateway_addr := ga,
          client_hwaddr := (raw.drop 28).take hlen,
          server_name := rstripZeros ((raw.drop 44).take 64),
          boot_file := rstripZeros ((raw.drop 108).take 128),
          options := opts }
      pure packet
  | _ => .error (.err "IndexError")

end Dhcp

namespace PyDhcp

/-- Membership of a value in the `Param` enum of
src/pypxe/dhcp/dhcp4/option.py (the full RFC 2132/3679 opcode listing:
0-83, 85-95, 97-101, 112-114, 116-125, 128-143, 150-157, 175-177, 208-213,
220-221 and 255). -/
def isParamValue (n : Nat) : Bool :=
  n ≤ 83 || (85 ≤ n && n ≤ 95) || (97 ≤ n && n ≤ 101)
    || (112 ≤ n && n ≤ 114) || (116 ≤ n && n ≤ 125) || (128 ≤ n && n ≤ 143)
    || (150 ≤ n && n ≤ 157) || (175 ≤ n && n ≤ 177) || (208 ≤ n && n ≤ 213)
    || (220 ≤ n && n ≤ 221) || n == 255

/-- The decoded option objects of src/pypxe/dhcp/dhcp4/option.py.  `base`
covers the base `Option` class and the raw-value subclasses that inherit
its classmethod `from_bytes` (`cls` is the class's own opcode tag, `opcode`
the `find_enum(Param, ...)` result on the first byte of the slice the
classmethod received, `value` that slice with its first two bytes
dropped). -/
inductive PyOpt
  | base (cls : Nat) (opcode : Nat) (value : List Byte)
  | ipv4Opt (cls : Nat) (ip : Dhcp.Ipv4)
  | ipLeaseTime (secs : Nat)
  | messageType (type : Dhcp.MessageType)
  | paramRequestList (params : List Nat)
  | maxMessageSize (max_length : Nat)
  | clientSysArch (archs : List Nat)
  | clientNetIface (major minor : Byte)
  | xxidClientIdent (value : List Byte)
deriving DecidableEq

/-- The `_options` registry built by scanning the module globals for classes
named `Opt*`: the base `Option` class itself (named `Option`, opcode
attribute `Param.OptionPad` = 0) is swept up by the `startswith('Opt')`
filter together with the true option classes. -/
def optTable (n : Nat) : Bool :=
  n == 0 || n == 1 || n == 3 || n == 6 || n == 50 || n == 51 || n == 53
    || n == 54 || n == 55 || n == 57 || n == 60 || n == 66 || n == 67
    || n == 77 || n == 93 || n == 94 || n == 97 || n == 128 || n == 175

/-- The base `Option.from_bytes(sub)` classmethod: `cls(value=sub[2:],
opcode=find_enum(Param, sub[0]))`; IndexError on an empty slice, ValueError
when the first byte is not a `Param` value. -/
def baseFromBytes (cls : Nat) (sub : List Byte) : Except Dhcp.DErr PyOpt :=
  match sub with
  | [] => .error (.err "IndexError")
  | b :: _ =>
      if isParamValue b.val then .ok (.base cls b.val (sub.drop 2))
      else .error (.err "ValueError: no such value in enum Param")

/-- Modelled from the spec: `iana.ArchList.from_bytes` (the `iana` module is
absent from the source tree; spec §3 gives opcode 93 the payload "list of
u16 big-endian arch codes"). -/
def archPairs : List Byte → List Nat
  | a :: b :: rest => (a.val * 256 + b.val) :: archPairs rest
  | _ => []

/-- The per-class `from_bytes(raw[2:optlen])` dispatch for the classes in
the `_options` registry of src/pypxe/dhcp/dhcp4/option.py. -/
def classFromBytes (cls : Nat) (sub : List Byte) : Except Dhcp.DErr PyOpt :=
  if cls = 1 ∨ cls = 3 ∨ cls = 6 ∨ cls = 50 ∨ cls = 54 ∨ cls = 128 then
    (Dhcp.Ipv4.from_bytes sub).map (fun ip => .ipv4Opt cls ip)
  else if cls = 51 then
    match sub with
    | [a, b, c, d] =>
        .ok (.ipLeaseTime (((a.val * 256 + b.val) * 256 + c.val) * 256 + d.val))
    | _ => .error (.err "struct.error")
  else if cls = 53 then
    match sub with
    | [] => .error (.err "IndexError")
    | b :: _ =>
        match Dhcp.MessageType.ofValue b.val with
        | some t => .ok (.messageType t)
        | none => .error (.err "ValueError: no such value in enum MessageType")
  else if cls = 55 then .ok (.paramRequestList (sub.map (·.val)))
  else if cls = 57 then
    match sub with
    | [a, b] => .ok (.maxMessageSize (a.val * 256 + b.val))
    | _ => .error (.err "struct.error")
  else if cls = 93 then
    if sub.length % 2 = 0 then .ok (.clientSysArch (archPairs sub))
    else .error (.err "struct.error")
  else if cls = 94 then
    match sub with
    | _ :: ma :: mi :: _ => .ok (.clientNetIface ma mi)
    | _ => .error (.err "IndexError")
  else if cls = 97 then .ok (.xxidClientIdent (sub.drop 1))
  else baseFromBytes cls sub

/-- `_from_bytes(raw)` from src/pypxe/dhcp/dhcp4/option.py lines 229-251:
`optlen = int(raw[1]) + 2` is computed for *every* opcode (including
opcode 0, which therefore consumes a length byte); a registered class
parses `raw[2:optlen]`, an unregistered opcode parses `raw[:optlen]`
through the base classmethod.  Returns the option and the number of bytes
consumed. -/
def pyFromBytesOne (raw : List Byte) : Except Dhcp.DErr (PyOpt × Nat) :=
  match raw with
  | [] => .error (.err "IndexError")
  | [_] => .error (.err "IndexError")
  | a :: L :: _ =>
      let optlen := L.val + 2
      if optTable a.val then
        (classFromBytes a.val ((raw.drop 2).take L.val)).map (fun o => (o, optlen))
      else
        (baseFromBytes 0 (raw.take optlen)).map (fun o => (o, optlen))

/-- `from_bytes(raw)` from src/pypxe/dhcp/dhcp4/option.py lines 253-267:
parse options one at a time, appending each before testing whether the next
byte is the End opcode 255 (an empty remainder raises IndexError).  Fuel
`raw.length + 1` always suffices (each step consumes at least two bytes). -/
def pyOptsFromBytes : Nat → List Byte → Except Dhcp.DErr (List PyOpt)
  | 0, _ => .error (.err "fuel exhausted (unreachable)")
  | fuel + 1, raw => do
      let (opt, mod) ← pyFromBytesOne raw
      match raw.drop mod with
      | [] => .error (.err "IndexError")
      | b :: rest2 =>
          if b.val = 255 then .ok [opt]
          else (pyOptsFromBytes fuel (b :: rest2)).map (fun tail => opt :: tail)

end PyDhcp

/-! ## Helper lemmas -/

open Tftp

/-- Removing a key makes its lookup fail. -/
theorem mlookup_mremove (addr : String) (m : SessionMap) :
    mlookup addr (mremove addr m) = none := by
  induction m with
  | nil => rfl
  | cons e t ih =>
      have ih' := ih
      rw [mremove, mlookup] at ih'
      by_cases he : e.1 == addr
      · rw [mremove, List.filter_cons, if_neg (by simp [he]), mlookup]
        exact ih'
      · rw [mremove, List.filter_cons, if_pos (by simp [he]), mlookup,
          List.find?_cons_of_neg _ (by simp [he])]
        exact ih'

/-- Removing a key after overwriting it equals removing it directly. -/
theorem mremove_minsert (addr : String) (v : Packet × Handler) (m : SessionMap) :
    mremove addr (minsert addr v m) = mremove addr m := by
  simp only [minsert, mremove, List.filter]
  rw [List.filter_filter]
  simp

/-- A list of length at least 4 starts with four cells. -/
theorem exists_cons4 (l : List Byte) (h : 4 ≤ l.length) :
    ∃ a b c d t, l = a :: b :: c :: d :: t := by
  match l, h with
  | a :: b :: c :: d :: t, _ => exact ⟨a, b, c, d, t, rfl⟩

/-- `take 2` of a list with at least two cells is a two-cell list. -/
theorem take2_eq (l : List Byte) (h : 2 ≤ l.length) :
    ∃ a b, l.take 2 = [a, b] := by
  match l, h with
  | a :: b :: t, _ => exact ⟨a, b, rfl⟩

/-- `take 4` of a list with at least four cells is a four-cell list. -/
theorem take4_eq (l : List Byte) (h : 4 ≤ l.length) :
    ∃ a b c d, l.take 4 = [a, b, c, d] := by
  match l, h with
  | a :: b :: c :: d :: t, _ => exact ⟨a, b, c, d, rfl⟩

/-! ## Claim theorems -/

/-- **C4** (code_bug). The claimed law `decode(encode(q)) = q` fails for
every TFTP packet: `tftp.from_bytes` compares the unpacked integer opcode
against members of the plain `enum.Enum` `OpCode` (`op ==
OpCode.ReadRequest`, ...), which is always `False` in Python, so every
input — including every valid encoding — reaches the
`NotImplementedError('invalid opcode: %d')` branch.  Shown here on the
encodings of `Acknowledgement(0)` and of `Error(NotDefined, b'')`; the
theorem also exhibits the second slip the claim singles out: even the
`Error.from_bytes` branch, were it reachable, stores the raw integer in the
`code` field, which never equals the `ErrorCode` member the typed
constructor stores. -/
theorem tftp_decode_encode_fails :
    Packet.to_bytes (.Acknowledgement 0) = some [0, 4, 0, 0]
      ∧ Tftp.from_bytes [0, 4, 0, 0] = .error (.generic "invalid opcode: 4")
      ∧ Packet.to_bytes (.Error (.enum .NotDefined) []) = some [0, 5, 0, 0]
      ∧ Tftp.from_bytes [0, 5, 0, 0] = .error (.generic "invalid opcode: 5")
      ∧ Error.from_bytes [0, 5, 0, 0] = .ok (.Error (.raw 0) [])
      ∧ (Packet.Error (.raw 0) [] ≠ .Error (.enum .NotDefined) []) := by
  refine ⟨by decide, by decide, by decide, by decide, by decide, by decide⟩

/-- Block number 65536 is outside the u16 range, so `Data.to_bytes` fails
(`struct.pack('>H', 65536)` raises struct.error) whatever the payload. -/
theorem data_65536_to_bytes_none (bs : List Byte) :
    Packet.to_bytes (.Data 65536 bs) = none := by
  simp [Packet.to_bytes, pack16, OpCode.value, Option.bind]

/-- A Reader state with the block counter at 65535, reached by an actual
transfer: with a negotiated blksize of 0 every data block is empty and
never terminal, so the counter climbs past any bound. -/
def overflowReader : Reader :=
  { file := ⟨[], 0⟩, block := 65535, options := [⟨.BlockSize, 0⟩],
    blksize := 0, tsize := none, optack := false, skip := false }

/-- **C5** (counterexample). A Reader whose block counter has reached 65535
emits `Data(65536, ...)` as its next data packet — not `Data(0, ...)` as
the claim states — and that packet cannot even be encoded. -/
theorem block_overflow_wrap_counterexample :
    (Reader.generate overflowReader).1 = some (.Data 65536 [])
      ∧ (65536 : Nat) ≠ 0
      ∧ Packet.to_bytes (.Data 65536 []) = none := by
  refine ⟨by decide, by decide, by decide⟩

/-- **C5** (amended). The block counter does not wrap: whenever the Reader's
counter stands at 65535 and a further data packet is generated, that packet
carries block number 65536, and its wire encoding fails
(`struct.pack('>H', 65536)` raises struct.error). -/
theorem block_overflow_no_wrap (r : Reader) (p : Packet)
    (hb : r.block = 65535) (hp : (Reader.generate r).1 = some p) :
    ∃ bs, p = .Data 65536 bs ∧ Packet.to_bytes p = none := by
  unfold Reader.generate at hp
  rw [hb] at hp
  rw [if_neg (by decide : ¬(65535 : Int) = -1)] at hp
  rw [if_neg (fun hcon => absurd hcon.1 (by decide))] at hp
  simp only [Reader.index, hb] at hp
  by_cases hle : r.blksize * 65535 ≤ (r.file.pos : Int)
  · rw [if_pos hle] at hp
    have hp2 : some (Packet.Data ((65535 : Int) + 1).toNat
        ((if (r.blksize * 65535 : Int) ≠ (r.file.pos : Int) then
          r.file.seekTo (r.blksize * 65535).toNat else r.file).read r.blksize).1)
        = some p := hp
    rw [show ((65535 : Int) + 1).toNat = 65536 by decide] at hp2
    have hpd := Option.some.inj hp2
    exact ⟨_, hpd.symm, hpd ▸ data_65536_to_bytes_none _⟩
  · rw [if_neg hle] at hp
    exact absurd hp (by simp)

/-- **C5** (witness for the amended theorem), at the concrete overflow
state. -/
theorem block_overflow_no_wrap_witness :
    overflowReader.block = 65535
      ∧ (Reader.generate overflowReader).1 = some (.Data 65536 [])
      ∧ ∃ bs, (Packet.Data 65536 [] : Packet) = .Data 65536 bs
          ∧ Packet.to_bytes (.Data 65536 []) = none :=
  ⟨by decide, by decide,
    block_overflow_no_wrap overflowReader (.Data 65536 []) (by decide) (by decide)⟩

/-- **C9** (counterexample). At the input `00 01 01 FF` — opcode 0 (Pad) at
the cursor — the option decoder consumes three bytes (it reads the byte
after the pad as a length), not one as the claim states. -/
theorem pad_option_consumption_counterexample :
    PyDhcp.pyFromBytesOne [0, 1, 1, 255] = .ok (.base 0 1 [], 3)
      ∧ (3 : Nat) ≠ 1 := by
  refine ⟨by decide, by decide⟩

/-- **C9** (amended). When the option decoder of
src/pypxe/dhcp/dhcp4/option.py encounters opcode 0 at the cursor, it treats
it like any other TLV: the next byte is read as a length `L` and `L + 2`
bytes are consumed (the base `Option` class, registered under opcode 0 by
the globals scan, parses the slice), not a single byte. -/
theorem pad_option_consumes_length_byte (L : Byte) (rest : List Byte)
    (out : PyDhcp.PyOpt × Nat)
    (h : PyDhcp.pyFromBytesOne ((0 : Byte) :: L :: rest) = .ok out) :
    out.2 = L.val + 2 := by
  unfold PyDhcp.pyFromBytesOne at h
  simp only [show PyDhcp.optTable (0 : Byte).val = true by decide, if_pos] at h
  cases hcf : PyDhcp.classFromBytes (0 : Byte).val
      ((((0 : Byte) :: L :: rest).drop 2).take L.val) with
  | error e => rw [hcf] at h; exact absurd h (by simp [Except.map])
  | ok o =>
      rw [hcf] at h
      simp only [Except.map] at h
      cases h
      rfl

/-- **C9** (witness for the amended theorem): at `00 02 01 09 FF` the
decoder consumes `2 + 2 = 4` bytes. -/
theorem pad_option_consumes_length_byte_witness :
    PyDhcp.pyFromBytesOne ((0 : Byte) :: (2 : Byte) :: [1, 9, 255])
        = .ok (.base 0 1 [], 4)
      ∧ ((PyDhcp.PyOpt.base 0 1 [], 4) : PyDhcp.PyOpt × Nat).2
          = (2 : Byte).val + 2 :=
  ⟨by decide,
    pad_option_consumes_length_byte 2 [1, 9, 255] (.base 0 1 [], 4) (by decide)⟩

/-- The tail (after the op/htype/hlen/hops bytes) of a 244-byte DHCP input
whose cookie slot `[236:240]` holds zeros instead of the magic cookie and
whose option region is a well-formed `MessageType(Discover)` + End stream. -/
def c3Rest : List Byte :=
  List.replicate 232 0 ++ [0, 0, 0, 0] ++ [53, 1, 1, 255]

/-- A 244-byte DHCPv4 input with op=1, htype=1, hlen=6 and no magic
cookie. -/
def raw244 : List Byte := 1 :: 1 :: 6 :: 0 :: c3Rest

/-- **C3** (counterexample). A 244-byte input whose bytes `[236:240]` are
zeros — not the magic cookie — is decoded successfully by
`DHCPv4.from_bytes`: the decoder never validates the cookie. -/
theorem dhcp_decode_bad_cookie_counterexample :
    (Dhcp.DHCPv4.from_bytes raw244).isOk = true
      ∧ 240 ≤ raw244.length
      ∧ (raw244.drop 236).take 4 ≠ Dhcp.magic_cookie := by
  refine ⟨by decide, by decide, by decide⟩

/-- **C3** (amended). `DHCPv4.from_bytes` performs no magic-cookie check:
every input of length at least 240 whose op byte is a valid `OpCode`, whose
htype byte is a known hardware type and whose option region parses, decodes
successfully — whatever bytes occupy the cookie slot `[236:240]`. -/
theorem dhcp_decode_ignores_cookie (b0 b1 b2 b3 : Byte) (rest : List Byte)
    (h : 236 ≤ rest.length)
    (hop : (Dhcp.OpCode.ofValue b0.val).isSome = true)
    (hht : (Dhcp.HWType.ofValue b1.val).isSome = true)
    (hopts : (Dhcp.specOptionsFromBytes (rest.drop 236)).isOk = true) :
    (Dhcp.DHCPv4.from_bytes (b0 :: b1 :: b2 :: b3 :: rest)).isOk = true := by
  obtain ⟨x0, x1, x2, x3, r4, rfl⟩ := exists_cons4 rest (by omega)
  rcases hopv : Dhcp.OpCode.ofValue b0.val with _ | o
  · rw [hopv] at hop; exact absurd hop (by decide)
  rcases hhtv : Dhcp.HWType.ofValue b1.val with _ | ht
  · rw [hhtv] at hht; exact absurd hht (by decide)
  simp only [List.length_cons] at h
  obtain ⟨sa, sb, hs⟩ := take2_eq
    ((b0 :: b1 :: b2 :: b3 :: x0 :: x1 :: x2 :: x3 :: r4).drop 8) (by simp; omega)
  obtain ⟨fa, fb, hf⟩ := take2_eq
    ((b0 :: b1 :: b2 :: b3 :: x0 :: x1 :: x2 :: x3 :: r4).drop 10) (by simp; omega)
  obtain ⟨c1, c2, c3, c4, hc⟩ := take4_eq
    ((b0 :: b1 :: b2 :: b3 :: x0 :: x1 :: x2 :: x3 :: r4).drop 12) (by simp; omega)
  obtain ⟨y1, y2, y3, y4, hy⟩ := take4_eq
    ((b0 :: b1 :: b2 :: b3 :: x0 :: x1 :: x2 :: x3 :: r4).drop 16) (by simp; omega)
  obtain ⟨v1, v2, v3, v4, hv⟩ := take4_eq
    ((b0 :: b1 :: b2 :: b3 :: x0 :: x1 :: x2 :: x3 :: r4).drop 20) (by simp; omega)
  obtain ⟨g1, g2, g3, g4, hg⟩ := take4_eq
    ((b0 :: b1 :: b2 :: b3 :: x0 :: x1 :: x2 :: x3 :: r4).drop 24) (by simp; omega)
  rw [show List.drop 236 (x0 :: x1 :: x2 :: x3 :: r4) = List.drop 232 r4 by simp]
    at hopts
  rcases hov : Dhcp.specOptionsFromBytes (List.drop 232 r4) with e | os
  · rw [hov] at hopts; simp [Except.isOk, Except.toBool] at hopts
  · simp only [Dhcp.DHCPv4.from_bytes, bind, Except.bind, hopv, hhtv, hs, hf,
      hc, hy, hv, hg, Dhcp.Ipv4.from_bytes,
      show List.drop 240 (b0 :: b1 :: b2 :: b3 :: x0 :: x1 :: x2 :: x3 :: r4)
        = List.drop 232 r4 by simp, hov]
    rfl

/-- **C3** (witness for the amended theorem), at the concrete cookie-less
244-byte input. -/
theorem dhcp_decode_ignores_cookie_witness :
    236 ≤ c3Rest.length
      ∧ (Dhcp.OpCode.ofValue (1 : Byte).val).isSome = true
      ∧ (Dhcp.HWType.ofValue (1 : Byte).val).isSome = true
      ∧ (Dhcp.specOptionsFromBytes (c3Rest.drop 236)).isOk = true
      ∧ (Dhcp.DHCPv4.from_bytes (1 :: 1 :: 6 :: 0 :: c3Rest)).isOk = true :=
  ⟨by decide, by decide, by decide, by decide,
    dhcp_decode_ignores_cookie 1 1 6 0 c3Rest (by decide) (by decide)
      (by decide) (by decide)⟩

/-- Slicing `[236:240]` out of a list that is a 236-byte prefix, a 4-byte
middle and a tail returns the middle. -/
theorem slice_mid (Q R T1 T2 : List Byte) (hQ : Q.length = 236)
    (hR : R.length = 4) :
    ((((Q ++ R) ++ T1) ++ T2).drop 236).take 4 = R := by
  have hx : ((Q ++ R) ++ T1) ++ T2 = Q ++ (R ++ (T1 ++ T2)) := by
    simp [List.append_assoc]
  rw [hx, ← hQ, List.drop_left, ← hR, List.take_left]

/-- **C7** (confirmed). Whenever the option list encodes (to the TLV
fragments `parts`), the hardware address is at most 16 bytes, the server
name at most 64 and the boot file at most 128, `DHCPv4.to_bytes` produces
exactly `240 + len(options TLV stream) + 1` bytes, with the magic cookie at
`[236:240]` and `0xFF` as the final byte. -/
theorem dhcp_encode_length_cookie_end (p : Dhcp.DHCPv4 Dhcp.Opt)
    (parts : List (List Byte))
    (hopts : p.options.mapM Dhcp.Opt.to_bytes = some parts)
    (hhw : p.client_hwaddr.length ≤ 16)
    (hsn : p.server_name.length ≤ 64)
    (hbf : p.boot_file.length ≤ 128) :
    ∃ bs, Dhcp.DHCPv4.to_bytes p = some bs
      ∧ bs.length = 240 + parts.flatten.length + 1
      ∧ (bs.drop 236).take 4 = Dhcp.magic_cookie
      ∧ bs.getLast? = some (255 : Byte) := by
  unfold Dhcp.DHCPv4.to_bytes
  have h1 : Dhcp.byteCheck p.client_hwaddr.length
      = some ⟨p.client_hwaddr.length, by omega⟩ := by
    unfold Dhcp.byteCheck
    exact dif_pos (by omega)
  rw [h1, if_pos hsn, if_pos hbf, hopts]
  simp only [Option.bind, Option.map]
  refine ⟨_, rfl, ?_, ?_, ?_⟩
  · simp only [List.length_append, List.length_cons, List.length_nil,
      List.length_drop, List.length_replicate, Dhcp.u16be,
      Dhcp.Ipv4.to_bytes, Dhcp.TransactionID.to_bytes, Dhcp.magic_cookie]
    omega
  · refine slice_mid _ _ _ _ ?_ rfl
    simp only [List.length_append, List.length_cons, List.length_nil,
      List.length_drop, List.length_replicate, Dhcp.u16be,
      Dhcp.Ipv4.to_bytes, Dhcp.TransactionID.to_bytes]
    omega
  · exact List.getLast?_concat _

/-- The DHCP Discover packet of the spec's first end-to-end scenario:
`op=BootRequest, htype=1, hlen=6, xid=0xDEADBEEF,
chaddr=00:11:22:33:44:55, options=[MessageType(Discover),
ParameterRequestList([1,3,6,51])]`. -/
def c7Packet : Dhcp.DHCPv4 Dhcp.Opt :=
  { op := .BootRequest, htype := .Ethernet, hops := 0,
    xid := ⟨222, 173, 190, 239⟩, secs := 0, flags := 0,
    client_addr := ⟨0, 0, 0, 0⟩, your_addr := ⟨0, 0, 0, 0⟩,
    server_addr := ⟨0, 0, 0, 0⟩, gateway_addr := ⟨0, 0, 0, 0⟩,
    client_hwaddr := [0, 17, 34, 51, 68, 85],
    server_name := [], boot_file := [],
    options := [.messageType .Discover, .paramRequestList [1, 3, 6, 51]] }

/-- **C7** (witness), at the spec's Discover scenario (encoded length
`240 + 3 + 6 + 1 = 250`). -/
theorem dhcp_encode_length_cookie_end_witness :
    c7Packet.options.mapM Dhcp.Opt.to_bytes
        = some [[53, 1, 1], [55, 4, 1, 3, 6, 51]]
      ∧ c7Packet.client_hwaddr.length ≤ 16
      ∧ c7Packet.server_name.length ≤ 64
      ∧ c7Packet.boot_file.length ≤ 128
      ∧ ∃ bs, Dhcp.DHCPv4.to_bytes c7Packet = some bs
          ∧ bs.length = 240 + ([[53, 1, 1], [55, 4, 1, 3, 6, 51]]
              : List (List Byte)).flatten.length + 1
          ∧ (bs.drop 236).take 4 = Dhcp.magic_cookie
          ∧ bs.getLast? = some (255 : Byte) :=
  ⟨by decide, by decide, by decide, by decide,
    dhcp_encode_length_cookie_end c7Packet [[53, 1, 1], [55, 4, 1, 3, 6, 51]]
      (by decide) (by decide) (by decide) (by decide)⟩

/-- A write request carrying a blksize option. -/
def wrqWithOptions : Packet :=
  .Request .WriteRequest (strBytes "f") .Octet [⟨.BlockSize, 1024⟩]

/-- **C2** (counterexample). An accepted write request that carries options
is answered with `Ack(0)`, not with an OACK: `Writer.generate` has no
option-acknowledgement path. -/
theorem wrq_first_response_oack_counterexample :
    (handlePacket (fun _ => none) (fun _ => some ⟨[], 0⟩) []
        wrqWithOptions "1.2.3.4:5").2 = some (.Acknowledgement 0)
      ∧ ((handlePacket (fun _ => none) (fun _ => some ⟨[], 0⟩) []
          wrqWithOptions "1.2.3.4:5").2).map Packet.op ≠ some OpCode.OptionAck
      ∧ 0 < ([⟨.BlockSize, 1024⟩] : List TftpOpt).length := by
  refine ⟨by decide, by decide, by decide⟩

/-- **C2** (amended). For every accepted TFTP write request — options or
not — the server's first response is `Ack(0)`. -/
theorem wrq_first_response_always_ack0 (rp wp : Packet → Option Buffer)
    (s : SessionMap) (addr : String) (fn : List Byte) (mode : RequestMode)
    (opts : List TftpOpt) (buf : Buffer)
    (hnew : mlookup addr s = none)
    (hwp : wp (.Request .WriteRequest fn mode opts) = some buf) :
    (handlePacket rp wp s (.Request .WriteRequest fn mode opts) addr).2
      = some (.Acknowledgement 0) := by
  unfold handlePacket onPacket
  rw [hnew]
  simp [hwp, Writer.generate, Writer.new]

/-- **C2** (witness for the amended theorem). -/
theorem wrq_first_response_always_ack0_witness :
    mlookup "1.2.3.4:5" [] = none
      ∧ (fun (_ : Packet) => some (⟨[], 0⟩ : Buffer)) wrqWithOptions = some ⟨[], 0⟩
      ∧ (handlePacket (fun _ => none) (fun _ => some ⟨[], 0⟩) []
          wrqWithOptions "1.2.3.4:5").2 = some (.Acknowledgement 0) :=
  ⟨by decide, rfl,
    wrq_first_response_always_ack0 (fun _ => none) (fun _ => some ⟨[], 0⟩)
      [] "1.2.3.4:5" (strBytes "f") .Octet [⟨.BlockSize, 1024⟩] ⟨[], 0⟩
      (by decide) rfl⟩

/-- The original read request stored in the C6 session. -/
def c6Req : Packet := .Request .ReadRequest (strBytes "foo") .Octet []

/-- A Reader mid-transfer: block counter 2, so the next expected
acknowledgement is `Ack(3)`. -/
def c6Reader : Reader :=
  { file := ⟨[1, 2, 3, 4, 5, 6], 4⟩, block := 2, options := [],
    blksize := 2, tsize := none, optack := false, skip := false }

/-- A session map with one active read transfer for peer `"p"`. -/
def c6Server : SessionMap := [("p", (c6Req, .reader c6Reader))]

/-- **C6** (counterexample). `Ack(5)` against a Reader expecting `Ack(3)`
yields `Error(IllegalOperation, ...)` and removes the session, but the
message is `"bad block=5, expected=3 "` — with a trailing space from the
`'bad block=%d, expected=%d '` format string — not exactly
`"bad block=5, expected=3"` as the claim states. -/
theorem bad_block_message_counterexample :
    handlePacket (fun _ => none) (fun _ => none) c6Server (.Acknowledgement 5) "p"
        = ([], some (.Error (.enum .IllegalOperation)
            (strBytes "bad block=5, expected=3 ")))
      ∧ strBytes "bad block=5, expected=3 " ≠ strBytes "bad block=5, expected=3" := by
  refine ⟨by decide, by decide⟩

/-- **C6** (amended). During an active read expecting `Ack(n)`, an incoming
`Ack(b)` with `b ≠ n` raises `BadBlockError(got=b, want=n)`, and the server
replies with an Error packet of code `IllegalOperation` whose message is
`"bad block=b, expected=n "` (trailing space included) and removes the
peer's session. -/
theorem bad_block_error_reply (rp wp : Packet → Option Buffer) (s : SessionMap)
    (addr : String) (req : Packet) (r : Reader) (b : Nat)
    (hs : mlookup addr s = some (req, .reader r))
    (hopen : r.block ≠ -1) (hskip : r.skip = false)
    (hb : (b : Int) ≠ r.block + 1) :
    (Reader.next r (.Acknowledgement b)).2 = .error (badBlockErr b (r.block + 1))
      ∧ handlePacket rp wp s (.Acknowledgement b) addr
          = (mremove addr s, some (.Error (.enum .IllegalOperation)
              (strBytes ("bad block=" ++ toString b ++ ", expected="
                ++ toString (r.block + 1) ++ " "))))
      ∧ mlookup addr (handlePacket rp wp s (.Acknowledgement b) addr).1 = none := by
  have hnext : Reader.next r (.Acknowledgement b)
      = (r, .error (badBlockErr b (r.block + 1))) := by
    unfold Reader.next
    rw [if_neg hopen]
    simp only [Packet.op, show ((OpCode.Ack == OpCode.Error) = false) by decide,
      show ((OpCode.Ack == OpCode.Ack) = true) by decide, Bool.false_eq_true,
      if_false, if_true]
    rw [if_neg (by simp [hskip]), if_pos hb]
  have hhp : handlePacket rp wp s (.Acknowledgement b) addr
      = (mremove addr s, some (.Error (.enum .IllegalOperation)
          (strBytes ("bad block=" ++ toString b ++ ", expected="
            ++ toString (r.block + 1) ++ " ")))) := by
    unfold handlePacket onPacket
    rw [hs]
    simp only [Packet.isReq, Packet.op,
      show ((OpCode.Ack == OpCode.ReadRequest) = false) by decide,
      show ((OpCode.Ack == OpCode.WriteRequest) = false) by decide,
      Bool.or_self, Bool.false_eq_true, if_false, Handler.next, hnext]
    rw [mremove_minsert]
    rfl
  exact ⟨by rw [hnext], hhp, by rw [hhp]; exact mlookup_mremove addr s⟩

/-- **C6** (witness for the amended theorem), at the concrete `Ack(5)`
versus expected `Ack(3)` scenario. -/
theorem bad_block_error_reply_witness :
    mlookup "p" c6Server = some (c6Req, .reader c6Reader)
      ∧ ((Reader.next c6Reader (.Acknowledgement 5)).2
            = .error (badBlockErr 5 (c6Reader.block + 1))
          ∧ handlePacket (fun _ => none) (fun _ => none) c6Server
              (.Acknowledgement 5) "p"
            = (mremove "p" c6Server, some (.Error (.enum .IllegalOperation)
                (strBytes ("bad block=" ++ toString 5 ++ ", expected="
                  ++ toString (c6Reader.block + 1) ++ " "))))
          ∧ mlookup "p" (handlePacket (fun _ => none) (fun _ => none) c6Server
              (.Acknowledgement 5) "p").1 = none) :=
  ⟨by decide,
    bad_block_error_reply (fun _ => none) (fun _ => none) c6Server "p"
      c6Req c6Reader 5 (by decide) (by decide) (by decide) (by decide)⟩

/-- **C8** (confirmed). After a datagram whose handling either raised an
error (`on_packet` propagated an exception) or completed the peer's
transfer (an existing session's `handler.next` returned `False`), the
session map holds no entry for that peer. -/
theorem session_removed_on_completion_or_error
    (rp wp : Packet → Option Buffer) (s : SessionMap) (pkt : Packet)
    (addr : String)
    (h : (∃ e, (onPacket rp wp s pkt addr).2 = .error e)
      ∨ ∃ en, mlookup addr s = some en ∧ pkt.isReq = false
          ∧ (Handler.next en.2 pkt).2 = .ok false) :
    mlookup addr (handlePacket rp wp s pkt addr).1 = none := by
  rcases h with ⟨e, he⟩ | ⟨⟨req, hd⟩, hm, hreq, hnext⟩
  · unfold handlePacket
    rcases ho : onPacket rp wp s pkt addr with ⟨s1, out⟩
    rw [ho] at he
    simp only at he
    subst he
    cases e with
    | serverError c m => exact mlookup_mremove addr s1
    | generic m => exact mlookup_mremove addr s1
  · unfold handlePacket onPacket
    rw [hm, hreq]
    simp only [Bool.false_eq_true, if_false]
    rcases hn : Handler.next hd pkt with ⟨hd1, out⟩
    rw [hn] at hnext
    simp only at hnext
    subst hnext
    exact mlookup_mremove addr s

/-- **C8** (witness): a one-packet write transfer (terminal short data
block) completes and its session disappears from the map. -/
theorem session_removed_on_completion_or_error_witness :
    mlookup "p" [("p", (c6Req, .writer (Writer.new ⟨[], 0⟩ [])))]
        = some (c6Req, .writer (Writer.new ⟨[], 0⟩ []))
      ∧ (Packet.Data 1 [42]).isReq = false
      ∧ (Handler.next (.writer (Writer.new ⟨[], 0⟩ [])) (.Data 1 [42])).2 = .ok false
      ∧ mlookup "p" (handlePacket (fun _ => none) (fun _ => none)
          [("p", (c6Req, .writer (Writer.new ⟨[], 0⟩ [])))] (.Data 1 [42]) "p").1
        = none :=
  ⟨by decide, by decide, by decide,
    session_removed_on_completion_or_error (fun _ => none) (fun _ => none)
      [("p", (c6Req, .writer (Writer.new ⟨[], 0⟩ [])))] (.Data 1 [42]) "p"
      (Or.inr ⟨(c6Req, .writer (Writer.new ⟨[], 0⟩ [])), by decide, by decide,
        by decide⟩)⟩

/-- **C10** (confirmed). An open Writer that expects block `n` and receives
`Data(n, payload)` with an oversized payload raises the `IllegalOperation`
server error, and the handler state at the raise already has the payload
written into the buffer: the write precedes the size check. -/
theorem writer_oversized_payload_error_after_write (w : Writer) (b : Nat)
    (payload : List Byte) (hopen : w.block ≠ -1) (hb : (b : Int) = w.block + 1)
    (hsz : (payload.length : Int) > w.blksize) :
    Writer.next w (.Data b payload) =
      ({ w with file := w.file.write payload },
        .error (.serverError .IllegalOperation
          ("invalid size=" ++ toString payload.length
            ++ ", block<=" ++ toString w.blksize))) := by
  unfold Writer.next
  rw [if_neg hopen]
  simp only [Packet.op, show ((OpCode.Data == OpCode.Error) = false) by decide,
    show ((OpCode.Data == OpCode.Data) = true) by decide, Bool.false_eq_true,
    if_false, if_true]
  rw [if_neg (by omega : ¬(b : Int) ≠ w.block + 1), if_pos hsz]

/-- **C10** (witness): a fresh Writer with negotiated blksize 2 receiving
`Data(1, [9,9,9])`. -/
theorem writer_oversized_payload_error_after_write_witness :
    Writer.next (Writer.new ⟨[], 0⟩ [⟨.BlockSize, 2⟩]) (.Data 1 [9, 9, 9]) =
      ({ Writer.new ⟨[], 0⟩ [⟨.BlockSize, 2⟩] with
          file := Buffer.write ⟨[], 0⟩ [9, 9, 9] },
        .error (.serverError .IllegalOperation "invalid size=3, block<=2")) := by
  have h := writer_oversized_payload_error_after_write
    (Writer.new ⟨[], 0⟩ [⟨.BlockSize, 2⟩]) 1 [9, 9, 9]
    (by decide) (by decide) (by decide)
  simpa using h

/-- Reader.generate in the data phase: at block `k` with the cursor at
`k*b`, it emits `Data(k+1)` with the next `b` file bytes and advances the
cursor (without seeking, since the cursor already equals the index). -/
theorem generate_data_step (r : Reader) (k b : Nat)
    (hblock : r.block = (k : Int))
    (hblk : r.blksize = (b : Int))
    (hoack : r.options.length = 0 ∨ r.optack = true)
    (hpos : r.file.pos = k * b) :
    Reader.generate r
      = (some (.Data (k + 1) ((r.file.data.drop (k * b)).take b)),
         { r with file := ⟨r.file.data,
             k * b + min b (r.file.data.length - k * b)⟩ }) := by
  have hidx : r.index = ((k * b : Nat) : Int) := by
    unfold Reader.index
    rw [hblk, hblock]
    push_cast
    ring
  unfold Reader.generate
  rw [if_neg (by rw [hblock]; omega)]
  rw [if_neg (fun hc => by
    rcases hoack with ho | ho
    · rw [ho] at hc; exact absurd hc.2.1 (by omega)
    · rw [ho] at hc; exact absurd hc.2.2 (by simp))]
  rw [if_pos (by rw [hidx, hpos])]
  rw [if_neg (not_not_intro (by rw [hidx, hpos]))]
  unfold Buffer.read Buffer.readBytes
  rw [hblk, if_neg (show ¬((b : Int) < 0) from by omega)]
  rw [hblock, hpos]
  simp only [Int.toNat_natCast, List.length_take, List.length_drop]
  show (some (Packet.Data ((k : Int) + 1).toNat _), _) = _
  rw [show ((k : Int) + 1).toNat = k + 1 by omega]

/-- Reader.next on the matching acknowledgement when the acknowledged block
was terminal (`filesize < blksize*(k+1)`): the counter advances and the
transfer reports completion. -/
theorem next_ack_stop (r : Reader) (k b : Nat)
    (hblock : r.block = (k : Int))
    (hblk : r.blksize = (b : Int))
    (hskip : r.skip = false)
    (hstop : (r.file.data.length : Int) < (b : Int) * ((k : Int) + 1)) :
    Reader.next r (.Acknowledgement (k + 1))
      = ({ r with block := (k : Int) + 1 }, .ok false) := by
  unfold Reader.next
  rw [if_neg (by rw [hblock]; omega)]
  simp only [Packet.op, show ((OpCode.Ack == OpCode.Error) = false) by decide,
    show ((OpCode.Ack == OpCode.Ack) = true) by decide, Bool.false_eq_true,
    if_false, if_true]
  rw [if_neg (by simp [hskip])]
  rw [if_neg (not_not_intro (by rw [hblock]; push_cast; ring))]
  rw [if_pos ?hcond]
  case hcond =>
    show (Reader.filesize _ : Int) < Reader.index _
    simp only [Reader.filesize, Reader.index]
    rw [hblock, hblk]
    exact hstop
  rw [hblock]

/-- Reader.next on the matching acknowledgement when more file remains: the
counter advances and the transfer continues. -/
theorem next_ack_go (r : Reader) (k b : Nat)
    (hblock : r.block = (k : Int))
    (hblk : r.blksize = (b : Int))
    (hskip : r.skip = false)
    (hgo : ¬((r.file.data.length : Int) < (b : Int) * ((k : Int) + 1))) :
    Reader.next r (.Acknowledgement (k + 1))
      = ({ r with block := (k : Int) + 1 }, .ok true) := by
  unfold Reader.next
  rw [if_neg (by rw [hblock]; omega)]
  simp only [Packet.op, show ((OpCode.Ack == OpCode.Error) = false) by decide,
    show ((OpCode.Ack == OpCode.Ack) = true) by decide, Bool.false_eq_true,
    if_false, if_true]
  rw [if_neg (by simp [hskip])]
  rw [if_neg (not_not_intro (by rw [hblock]; push_cast; ring))]
  rw [if_neg ?hcond]
  case hcond =>
    show ¬((Reader.filesize _ : Int) < Reader.index _)
    simp only [Reader.filesize, Reader.index]
    rw [hblock, hblk]
    exact hgo
  rw [hblock]

/-- Data-phase invariant of a driven read transfer: from block `k` with the
cursor at `k*b` (OACK already handled), the number of Data packets still to
be emitted is `(filesize - k*b)/b + 1`. -/
theorem drive_data_count : ∀ (m : Nat) (r : Reader) (k b : Nat),
    r.block = (k : Int) →
    r.blksize = (b : Int) → 0 < b →
    r.skip = false →
    (r.options.length = 0 ∨ r.optack = true) →
    r.file.pos = k * b →
    k * b ≤ r.file.data.length →
    (r.file.data.length - k * b) / b + 1 ≤ m →
    countData (Reader.drive m r) = (r.file.data.length - k * b) / b + 1
  | 0, r, k, b => by
      intro _ _ _ _ _ _ _ hm
      exact absurd hm (Nat.not_succ_le_zero _)
  | m + 1, r, k, b => by
      intro hblock hblk hb hskip hoack hpos hle hm
      rw [Reader.drive]
      rw [generate_data_step r k b hblock hblk hoack hpos]
      simp only [clientAck]
      by_cases hstop : ((r.file.data.length : Int) < (b : Int) * ((k : Int) + 1))
      · rw [next_ack_stop
          { r with file := ⟨r.file.data,
              k * b + min b (r.file.data.length - k * b)⟩ }
          k b hblock hblk hskip hstop]
        have hlt : r.file.data.length < k * b + b := by
          have hcast : (b : Int) * ((k : Int) + 1) = ((k * b + b : Nat) : Int) := by
            push_cast
            ring
          rw [hcast] at hstop
          exact_mod_cast hstop
        have hdiv : (r.file.data.length - k * b) / b = 0 :=
          Nat.div_eq_of_lt (by omega)
        simp only [countData, List.filter_cons, List.filter_nil, Packet.isData,
          if_true, List.length_cons, List.length_nil, hdiv]
      · rw [next_ack_go
          { r with file := ⟨r.file.data,
              k * b + min b (r.file.data.length - k * b)⟩ }
          k b hblock hblk hskip hstop]
        have hge : k * b + b ≤ r.file.data.length := by
          have hcast : (b : Int) * ((k : Int) + 1) = ((k * b + b : Nat) : Int) := by
            push_cast
            ring
          rw [hcast] at hstop
          omega
        have hmin : min b (r.file.data.length - k * b) = b := by omega
        have hdiv : (r.file.data.length - k * b) / b
            = (r.file.data.length - (k * b + b)) / b + 1 := by
          rw [show r.file.data.length - (k * b + b)
              = r.file.data.length - k * b - b by omega]
          exact Nat.div_eq_sub_div hb (by omega)
        have ihx := drive_data_count m
          { file := ⟨r.file.data, k * b + min b (r.file.data.length - k * b)⟩,
            block := (k : Int) + 1, options := r.options, blksize := r.blksize,
            tsize := r.tsize, optack := r.optack, skip := r.skip }
          (k + 1) b
          (by push_cast; rfl) hblk hb hskip hoack
          (show k * b + min b (r.file.data.length - k * b) = (k + 1) * b by
            rw [hmin, Nat.succ_mul])
          (show (k + 1) * b ≤ r.file.data.length by rw [Nat.succ_mul]; omega)
          (show (r.file.data.length - (k + 1) * b) / b + 1 ≤ m by
            rw [Nat.succ_mul]
            omega)
        have ihx2 : countData (Reader.drive m
            { file := ⟨r.file.data, k * b + min b (r.file.data.length - k * b)⟩,
              block := (k : Int) + 1, options := r.options, blksize := r.blksize,
              tsize := r.tsize, optack := r.optack, skip := r.skip })
            = (r.file.data.length - (k + 1) * b) / b + 1 := ihx
        simp only [countData, List.filter_cons, Packet.isData, if_true,
          List.length_cons] at ihx2 ⊢
        rw [ihx2, Nat.succ_mul]
        omega

/-- Reader.generate at block 0 with options present and no OACK sent yet:
emits the option acknowledgement and sets the `_optack`/`_skip` flags. -/
theorem generate_oack_step (r : Reader)
    (hblock : r.block = 0) (hlen : 0 < r.options.length)
    (hoptack : r.optack = false) :
    Reader.generate r
      = (some (.OptionAcknowledgement
          ((if r.blksize ≠ 512 then [⟨.BlockSize, r.blksize⟩] else [])
            ++ (if r.tsize.isSome then [⟨.TotalSize, (r.filesize : Int)⟩]
              else []))),
        { r with optack := true, skip := true }) := by
  unfold Reader.generate
  rw [if_neg (by rw [hblock]; omega)]
  rw [if_pos ⟨hblock, hlen, hoptack⟩]

/-- Reader.next on `Ack(0)` while `_skip` is set: clears the flag and
continues without touching the block counter. -/
theorem next_ack0_skip (r : Reader) (hblock : r.block = 0)
    (hskip : r.skip = true) :
    Reader.next r (.Acknowledgement 0) = ({ r with skip := false }, .ok true) := by
  unfold Reader.next
  rw [if_neg (by rw [hblock]; omega)]
  simp only [Packet.op, show ((OpCode.Ack == OpCode.Error) = false) by decide,
    show ((OpCode.Ack == OpCode.Ack) = true) by decide, Bool.false_eq_true,
    if_false, if_true]
  rw [if_pos hskip]
  rw [if_neg (not_not_intro rfl)]

/-- **C1** (amended). A complete read transfer driven against the Reader
state machine with negotiated block size `b` over a file of `data.length`
bytes emits exactly `data.length / b + 1` Data packets (integer division):
this equals `ceil(filesize/blksize)` when `b` does not divide the file
size, is one more than it (the extra zero-length terminal block) when the
file is a positive multiple of `b`, and is 1 for an empty file. -/
theorem reader_data_count_floor_succ (data : List Byte) (opts : List TftpOpt)
    (b : Nat) (fuel : Nat)
    (hb : optsBlocksize opts = (b : Int)) (hbpos : 0 < b)
    (hfuel : data.length / b + 2 ≤ fuel) :
    countData (Reader.drive fuel (Reader.new ⟨data, 0⟩ opts))
      = data.length / b + 1 := by
  by_cases hopts : opts.length = 0
  · have h := drive_data_count fuel (Reader.new ⟨data, 0⟩ opts) 0 b
      (by simp [Reader.new]) hb hbpos rfl (Or.inl hopts)
      (by simp [Reader.new]) (by simp [Reader.new])
      (by simp [Reader.new]; omega)
    simpa [Reader.new] using h
  · have hfe : 2 ≤ fuel := Nat.le_trans (Nat.le_add_left 2 (data.length / b)) hfuel
    obtain ⟨f, rfl⟩ : ∃ f, fuel = f + 1 := ⟨fuel - 1, by omega⟩
    rw [Reader.drive]
    rw [generate_oack_step (Reader.new ⟨data, 0⟩ opts) rfl
      (show 0 < opts.length by omega) rfl]
    simp only [clientAck]
    rw [next_ack0_skip _ rfl rfl]
    have h := drive_data_count f
      { Reader.new ⟨data, 0⟩ opts with optack := true, skip := false } 0 b
      (by simp [Reader.new]) hb hbpos rfl (Or.inr rfl)
      (by simp [Reader.new]) (by simp [Reader.new])
      (by simp [Reader.new]; omega)
    have h2 : countData (Reader.drive f
        { Reader.new ⟨data, 0⟩ opts with optack := true, skip := false })
        = data.length / b + 1 := by simpa [Reader.new] using h
    simp only [countData, List.filter_cons, Packet.isData, Bool.false_eq_true,
      if_false] at h2 ⊢
    exact h2

/-- **C1** (counterexample). A 2-byte file with negotiated blksize 2 (an
exact multiple): the driven transfer emits 2 Data packets — the full block
and the zero-length terminal block — while `ceil(2/2) = 1`. -/
theorem reader_data_count_ceil_counterexample :
    countData (Reader.drive 6 (Reader.new ⟨[7, 8], 0⟩ [⟨.BlockSize, 2⟩])) = 2
      ∧ (2 + 2 - 1) / 2 = 1
      ∧ (2 : Nat) ≠ 1 := by
  refine ⟨by decide, by decide, by decide⟩

/-- **C1** (witness for the amended theorem): a 3-byte file at the default
blksize 512 yields a single Data packet. -/
theorem reader_data_count_floor_succ_witness :
    optsBlocksize [] = ((512 : Nat) : Int)
      ∧ 0 < (512 : Nat)
      ∧ ([1, 2, 3] : List Byte).length / 512 + 2 ≤ 5
      ∧ countData (Reader.drive 5 (Reader.new ⟨[1, 2, 3], 0⟩ []))
          = ([1, 2, 3] : List Byte).length / 512 + 1 :=
  ⟨by decide, by decide, by decide,
    reader_data_count_floor_succ [1, 2, 3] [] 512 5 (by decide) (by decide)
      (by decide)⟩

end PyPxe
